import Mathlib

/-!
Verification development for the BudgetApp repository.

The repository contains two small HTTP services:

* `BudgetAppBackend/app.py` — a Flask proxy for a third-party financial-data
  API (link-token creation, public-token exchange, transaction retrieval,
  health check);
* `app/main.py` — a FastAPI service that accepts uploaded CSV/spreadsheet
  files, persists them under `uploads/`, parses them and returns the rows.

The embedding below mirrors each endpoint handler as a pure Lean function.
External effects are made explicit parameters:

* an upstream HTTP call (`requests.post(...).json()`) is an
  `Except String Dict` input — `.error msg` embeds any exception raised while
  sending the request or decoding its JSON body (with `msg` the Python
  `str()` of the exception), `.ok d` the decoded JSON object;
* the wall clock enters as an integer day count (`today`) or a timestamp;
* the uploads directory is an association list from filename to file bytes,
  threaded through the upload handler;
* `pandas.read_excel` (whose behaviour on arbitrary bytes is outside the
  scope of the claims) is an oracle parameter of the upload handler, while
  `pandas.read_csv` is modelled concretely for simple comma-delimited files.

Each handler returns the list of upstream requests it sends (URL plus JSON
body — these carry the credentials) together with the HTTP response the
caller sees (status code plus JSON object body).
-/

/-- JSON values, the shape of request/response bodies and of the values
Python's `json` layer hands the handlers. -/
inductive Json where
  | null : Json
  | bool (b : Bool) : Json
  | num (q : Rat) : Json
  | str (s : String) : Json
  | arr (elems : List Json) : Json
  | obj (kvs : List (String × Json)) : Json

/-- A Python dict with string keys, as an association list. Python dicts have
unique keys, so first-match lookup is lookup. -/
abbrev Dict := List (String × Json)

/-- Embedding of Python `d.get(k, default)`. -/
def dgetD (d : Dict) (k : String) (v : Json) : Json :=
  (d.lookup k).getD v

/-- An HTTP response as the caller sees it: status code and JSON object body. -/
structure HttpResponse where
  status : Nat
  body : Dict

/-- An outbound upstream request: URL and JSON body. -/
structure UpReq where
  url : String
  reqBody : Dict

namespace BudgetAppBackend

/-- Process-wide configuration read from the environment at startup
(`PLAID_CLIENT_ID`, `PLAID_SECRET`, `PLAID_ENV`). -/
structure Creds where
  clientId : String
  secret : String
  env : String

/-- URL of the upstream link-token-creation endpoint,
`f-string https://PLAID_ENV.plaid.com/link/token/create`. -/
def linkTokenUrl (env : String) : String :=
  "https://" ++ env ++ ".plaid.com/link/token/create"

/-- URL of the upstream public-token-exchange endpoint. -/
def exchangeUrl (env : String) : String :=
  "https://" ++ env ++ ".plaid.com/item/public_token/exchange"

/-- URL of the upstream accounts endpoint. -/
def accountsUrl (env : String) : String :=
  "https://" ++ env ++ ".plaid.com/accounts/get"

/-- URL of the upstream transactions endpoint. -/
def transactionsUrl (env : String) : String :=
  "https://" ++ env ++ ".plaid.com/transactions/get"

/-- Embedding of Python `str()` on a JSON-shaped value: `str(None)` is
`"None"`, strings are themselves, booleans capitalise. The rendering of
numbers and containers is abstracted (no claim depends on it); only the
`date` field of a transaction flows through `str()` and the claims exercise
the `None` and string cases. -/
def pyStr : Json → String
  | Json.null => "None"
  | Json.bool true => "True"
  | Json.bool false => "False"
  | Json.num q => toString q
  | Json.str s => s
  | Json.arr _ => "<list repr>"
  | Json.obj _ => "<dict repr>"

/-- Loop body of the transaction-formatting loop in `get_transactions`
(app.py lines 132–142): each field is fetched with `transaction.get`, whose
default is `None` (`Json.null`) except for `category`, which defaults to the
empty list; `date` additionally goes through `str()`. -/
def formatTx (t : Dict) : Dict :=
  [("transaction_id", dgetD t "transaction_id" Json.null),
   ("date", Json.str (pyStr (dgetD t "date" Json.null))),
   ("name", dgetD t "name" Json.null),
   ("amount", dgetD t "amount" Json.null),
   ("category", dgetD t "category" (Json.arr [])),
   ("account_id", dgetD t "account_id" Json.null)]

/-- Embedding of Python `for x in v:` over a JSON value: lists yield their
elements, strings their one-character substrings, dicts their keys; other
values raise `TypeError`, which the handler's catch-all turns into a 500. -/
def iterElems : Json → Except String (List Json)
  | Json.arr ts => Except.ok ts
  | Json.str s => Except.ok (s.toList.map (fun ch => Json.str (String.mk [ch])))
  | Json.obj kvs => Except.ok (kvs.map (fun kv => Json.str kv.1))
  | _ => Except.error "TypeError: object is not iterable"

/-- The transaction-formatting loop over the fetched elements: a non-dict
element has no `.get` method, so the loop raises `AttributeError` there
(turned into a 500 by the catch-all); otherwise every element is formatted
by `formatTx` in order. -/
def formatAll : List Json → Except String (List Json)
  | [] => Except.ok []
  | Json.obj t :: rest =>
      match formatAll rest with
      | Except.ok out => Except.ok (Json.obj (formatTx t) :: out)
      | Except.error e => Except.error e
  | _ :: _ => Except.error "AttributeError: object has no attribute get"

/-- Tail of `get_transactions` once both upstream bodies have been decoded:
only the transactions response is inspected for an `error` key (400 if
present, echoing the upstream error value); `transactions` defaults to `[]`,
`total_transactions` to `0`, and `accounts` is taken from the accounts
response with default `[]`. -/
def buildTxResponse (accountsResult result : Dict) : HttpResponse :=
  match result.lookup "error" with
  | some err => ⟨400, [("error", err)]⟩
  | none =>
    match iterElems (dgetD result "transactions" (Json.arr [])) with
    | Except.error e => ⟨500, [("error", Json.str e)]⟩
    | Except.ok elems =>
      match formatAll elems with
      | Except.error e => ⟨500, [("error", Json.str e)]⟩
      | Except.ok fts =>
        ⟨200, [("transactions", Json.arr fts),
               ("total_transactions", dgetD result "total_transactions" (Json.num 0)),
               ("accounts", dgetD accountsResult "accounts" (Json.arr []))]⟩

/-- Embedding of the Flask handler `create_link_token` (app.py lines 15–46).
`nowTs` is `int(datetime.now().timestamp())`. On any exception the catch-all
returns 500 with the exception text; a decoded body without `link_token`
gives 400; otherwise 200 with the token. -/
def create_link_token (c : Creds) (nowTs : Nat) (upstream : Except String Dict) :
    List UpReq × HttpResponse :=
  let req : UpReq :=
    ⟨linkTokenUrl c.env,
     [("client_id", Json.str c.clientId),
      ("secret", Json.str c.secret),
      ("client_name", Json.str "Budget App"),
      ("country_codes", Json.arr [Json.str "US"]),
      ("language", Json.str "en"),
      ("user", Json.obj [("client_user_id",
          Json.str ("budget_app_user_" ++ toString nowTs))]),
      ("products", Json.arr [Json.str "transactions"])]⟩
  match upstream with
  | Except.error e => ([req], ⟨500, [("error", Json.str e)]⟩)
  | Except.ok result =>
    match result.lookup "link_token" with
    | none => ([req], ⟨400, [("error", Json.str "Failed to create link token")]⟩)
    | some tok => ([req], ⟨200, [("link_token", tok)]⟩)

/-- Embedding of the Flask handler `exchange_token` (app.py lines 48–75).
`reqJson` is the request's JSON body. `request.json['public_token']` raises
`KeyError` when the key is absent, and the catch-all turns that into a 500
whose error text is Python's `str(KeyError('public_token'))`; no upstream
call is made in that case. A decoded upstream body without `access_token`
gives 400, otherwise 200 with the token. -/
def exchange_token (c : Creds) (reqJson : Dict) (upstream : Except String Dict) :
    List UpReq × HttpResponse :=
  match reqJson.lookup "public_token" with
  | none => ([], ⟨500, [("error", Json.str "\x27public_token\x27")]⟩)
  | some pt =>
    let req : UpReq :=
      ⟨exchangeUrl c.env,
       [("client_id", Json.str c.clientId),
        ("secret", Json.str c.secret),
        ("public_token", pt)]⟩
    match upstream with
    | Except.error e => ([req], ⟨500, [("error", Json.str e)]⟩)
    | Except.ok result =>
      match result.lookup "access_token" with
      | none => ([req], ⟨400, [("error", Json.str "Failed to exchange token")]⟩)
      | some tok => ([req], ⟨200, [("access_token", tok)]⟩)

/-- Embedding of the Flask handler `get_transactions` (app.py lines 77–154).
`accessToken` is `request.args.get('access_token')` (a string, or `None`
when absent, sent upstream as JSON null). `today` is `datetime.now().date()`
as an integer day count; `str()` of a date is embedded as `toString` of that
integer, so `start_date` is the string of `today - 730` exactly as the code
computes `end_date - timedelta(days=730)`. The accounts call happens first;
an exception there aborts the handler with a 500 before the transactions
call. -/
def get_transactions (c : Creds) (accessToken : Option String) (today : Int)
    (accountsUp : Except String Dict) (txUp : Except String Dict) :
    List UpReq × HttpResponse :=
  let tokJson : Json :=
    match accessToken with
    | none => Json.null
    | some s => Json.str s
  let accReq : UpReq :=
    ⟨accountsUrl c.env,
     [("client_id", Json.str c.clientId),
      ("secret", Json.str c.secret),
      ("access_token", tokJson)]⟩
  match accountsUp with
  | Except.error e => ([accReq], ⟨500, [("error", Json.str e)]⟩)
  | Except.ok accountsResult =>
    let txReq : UpReq :=
      ⟨transactionsUrl c.env,
       [("client_id", Json.str c.clientId),
        ("secret", Json.str c.secret),
        ("access_token", tokJson),
        ("start_date", Json.str (toString (today - 730))),
        ("end_date", Json.str (toString today))]⟩
    match txUp with
    | Except.error e => ([accReq, txReq], ⟨500, [("error", Json.str e)]⟩)
    | Except.ok result => ([accReq, txReq], buildTxResponse accountsResult result)

/-- Embedding of the Flask handler `health_check` (app.py lines 156–158):
a constant 200 with a two-key body. -/
def health_check : HttpResponse :=
  ⟨200, [("status", Json.str "healthy"),
         ("service", Json.str "budget-app-backend")]⟩

end BudgetAppBackend

namespace AppMain

/-- The uploads directory: filename to file content (bytes as a string).
Newer writes shadow older ones, matching create-or-overwrite. -/
abbrev Fs := List (String × String)

/-- Writing `uploads/<filename>`: `open(file_path, "wb")` creates or
overwrites, so the new binding shadows any previous one. -/
def fsWrite (fs : Fs) (filename content : String) : Fs :=
  (filename, content) :: fs

/-- Digits of a decimal literal to a natural number; `none` when empty or
containing a non-digit. -/
def digitsToNat : List Char → Option Nat
  | [] => none
  | cs =>
    if cs.all Char.isDigit then
      some (cs.foldl (fun a c => a * 10 + (c.toNat - 48)) 0)
    else none

/-- Unsigned decimal literal (`digits` or `digits.digits`) as a pair of
mantissa and power-of-ten denominator, so `3.50` is `(350, 100)`. -/
def parseUnsigned (cs : List Char) : Option (Nat × Nat) :=
  match cs.splitOn '.' with
  | [w] => (digitsToNat w).map (fun n => (n, 1))
  | [w, f] =>
    match digitsToNat w, digitsToNat f with
    | some wn, some fn => some (wn * 10 ^ f.length + fn, 10 ^ f.length)
    | _, _ => none
  | _ => none

/-- Optionally-signed decimal literal as a rational; `none` for any string
that is not a plain decimal number (so `2024-01-01` and `Coffee` are not
numbers, while `-3.50` is, with value `mkRat (-350) 100 = -7/2`). -/
def parseDecimal (s : String) : Option Rat :=
  match s.toList with
  | '-' :: rest => (parseUnsigned rest).map (fun p => mkRat (-(p.1 : Int)) p.2)
  | cs => (parseUnsigned cs).map (fun p => mkRat (p.1 : Int) p.2)

/-- Embedding of Python `str.endswith`, via character lists. -/
def strEndsWith (s suffix : String) : Bool :=
  suffix.toList.isSuffixOf s.toList

/-- Lines of the file as character lists, with blank lines skipped as pandas
does by default. -/
def splitLines (s : String) : List (List Char) :=
  (s.toList.splitOn '\n').filter (fun line => !line.isEmpty)

/-- One parsed row: each header name is bound to the cell in its column,
numeric columns coerced to numbers, others kept as strings. -/
def rowRecord (cols : List String) (colIsNum : Nat → Bool) (r : List String) : Dict :=
  (List.range cols.length).map (fun j =>
    (cols.getD j "",
     if colIsNum j then
       match parseDecimal (r.getD j "") with
       | some q => Json.num q
       | none => Json.null
     else Json.str (r.getD j "")))

/-- Modelled behaviour of `pandas.read_csv` followed by
`df.to_dict(orient='records')` on simple comma-delimited text: the first
line is the header, each later line one record in order; a column all of
whose cells parse as decimal numbers is coerced to numbers (pandas type
inference), any other column stays as strings. An empty file raises
(`EmptyDataError`), and a row whose field count differs from the header's
is modelled as a parse error (pandas raises on extra fields; short rows,
which pandas pads with NaN, do not arise in any claim). Quoting, escapes
and exotic numeric formats are outside the scope of the claims. -/
def read_csv (content : String) : Except String (List Dict) :=
  match splitLines content with
  | [] => Except.error "No columns to parse from file"
  | header :: rows =>
    let cols := (header.splitOn ',').map String.mk
    let table := rows.map (fun r => (r.splitOn ',').map String.mk)
    if table.all (fun r => r.length = cols.length) then
      let colIsNum : Nat → Bool := fun j =>
        table.all (fun r => (parseDecimal (r.getD j "")).isSome)
      Except.ok (table.map (rowRecord cols colIsNum))
    else Except.error "Error tokenizing data"

/-- Embedding of the FastAPI handler `upload_file` (main.py lines 25–51).
The uploaded bytes are first written to `uploads/<filename>`; then the
format is chosen by filename suffix alone: `.csv` runs the CSV parser,
`.xlsx`/`.xls` run the `readExcel` oracle (pandas `read_excel`), and any
other suffix raises `HTTPException(400, "Unsupported file format")`.
Crucially, that 400 exception is raised inside the `try` block whose
`except Exception` clause catches every `Exception` — FastAPI's
`HTTPException` included — and re-raises `HTTPException(500, str(e))`, so
every failure in the `try` block, the unsupported-format branch included,
reaches the caller as a 500 whose `detail` is the original exception's
text (`str` of the 400 `HTTPException` is `400: Unsupported file format`).
Success returns 200 with the records under `transactions`. -/
def upload_file (readExcel : String → Except String (List Dict))
    (fs : Fs) (filename content : String) : Fs × HttpResponse :=
  let savedFs := fsWrite fs filename content
  let tryResult : Except String (List Dict) :=
    if strEndsWith filename ".csv" then
      read_csv content
    else if strEndsWith filename ".xlsx" || strEndsWith filename ".xls" then
      readExcel content
    else
      Except.error "400: Unsupported file format"
  (savedFs,
   match tryResult with
   | Except.ok records =>
       ⟨200, [("message", Json.str "File uploaded successfully"),
              ("transactions", Json.arr (records.map Json.obj))]⟩
   | Except.error msg => ⟨500, [("detail", Json.str msg)]⟩)

/-- Embedding of the FastAPI handler `health_check` (main.py lines 53–55):
a constant 200 with the single-key body. -/
def health_check : HttpResponse :=
  ⟨200, [("status", Json.str "healthy")]⟩

end AppMain

/-- Response classification used for the error-handling contract of the
Flask endpoints: either a 200 whose body carries every key of the expected
success shape, or a 400/500 whose body carries an `error` key. -/
def errorOrSuccess (r : HttpResponse) (okKeys : List String) : Prop :=
  (r.status = 200 ∧ ∀ k ∈ okKeys, ∃ v, r.body.lookup k = some v) ∨
  ((r.status = 400 ∨ r.status = 500) ∧ ∃ v, r.body.lookup "error" = some v)

/-- Helper: `d.get(k, v)` returns the default when the key is absent. -/
theorem dgetD_eq_default (t : Dict) (k : String) (v : Json)
    (h : t.lookup k = none) : dgetD t k v = v := by
  simp [dgetD, h]

/-- C1: the claim says an unrecognized filename suffix yields HTTP 400 with
an UnsupportedFormat error. The handler does raise
`HTTPException(400, "Unsupported file format")`, but inside the `try` block
whose `except Exception` clause catches it and re-raises
`HTTPException(500, str(e))`, so the caller actually receives a 500. This
theorem evaluates the handler at the failing input `data.txt`: the response
is a 500 whose detail carries the swallowed 400's text. -/
theorem C1_unsupported_suffix_yields_500 :
    (AppMain.upload_file (fun _ => Except.error "not an excel file") []
        "data.txt" "hello").2 =
      ⟨500, [("detail", Json.str "400: Unsupported file format")]⟩ :=
  rfl

/-- C2 counterexample: the claim says a key absent from the raw record is
replaced by the empty string for the string fields and for the date. On the
empty raw record the code instead produces `None` (JSON null) for
`transaction_id` and the string `"None"` (Python `str(None)`) for `date`,
neither of which is the empty string. -/
theorem C2_defaults_are_null_not_empty_string :
    (BudgetAppBackend.formatTx []).lookup "transaction_id" = some Json.null ∧
    some Json.null ≠ some (Json.str "") ∧
    (BudgetAppBackend.formatTx []).lookup "date" = some (Json.str "None") ∧
    some (Json.str "None") ≠ some (Json.str "") := by
  refine ⟨rfl, ?_, rfl, ?_⟩ <;> simp

/-- C2 amended: normalizing any sequence of raw transaction records
(mappings) never raises, and any absent key resolves to `transaction.get`'s
defaults — JSON null for `transaction_id`, `name`, `amount` and
`account_id`, the string `"None"` (str of null) for `date`, and the empty
list for `category`. -/
theorem C2_normalization_defaults (ts : List Dict) :
    (∃ out, BudgetAppBackend.formatAll (ts.map Json.obj) = Except.ok out) ∧
    ∀ t : Dict,
      (t.lookup "transaction_id" = none →
        (BudgetAppBackend.formatTx t).lookup "transaction_id" = some Json.null) ∧
      (t.lookup "date" = none →
        (BudgetAppBackend.formatTx t).lookup "date" = some (Json.str "None")) ∧
      (t.lookup "name" = none →
        (BudgetAppBackend.formatTx t).lookup "name" = some Json.null) ∧
      (t.lookup "amount" = none →
        (BudgetAppBackend.formatTx t).lookup "amount" = some Json.null) ∧
      (t.lookup "category" = none →
        (BudgetAppBackend.formatTx t).lookup "category" = some (Json.arr [])) ∧
      (t.lookup "account_id" = none →
        (BudgetAppBackend.formatTx t).lookup "account_id" = some Json.null) := by
  constructor
  · induction ts with
    | nil => exact ⟨[], rfl⟩
    | cons t rest ih =>
      obtain ⟨out, hout⟩ := ih
      exact ⟨Json.obj (BudgetAppBackend.formatTx t) :: out,
        by simp [BudgetAppBackend.formatAll, hout]⟩
  · intro t
    refine ⟨fun h => ?_, fun h => ?_, fun h => ?_, fun h => ?_, fun h => ?_,
      fun h => ?_⟩ <;>
      simp only [BudgetAppBackend.formatTx, dgetD_eq_default t _ _ h] <;> rfl

/-- C2 amended, witness: the amended theorem applied to the singleton list
holding the empty record, with its hypotheses discharged by computation. -/
theorem C2_normalization_defaults_witness :
    (∃ out, BudgetAppBackend.formatAll ([([] : Dict)].map Json.obj) = Except.ok out) ∧
    (BudgetAppBackend.formatTx []).lookup "date" = some (Json.str "None") ∧
    (BudgetAppBackend.formatTx []).lookup "amount" = some Json.null ∧
    (BudgetAppBackend.formatTx []).lookup "category" = some (Json.arr []) :=
  ⟨(C2_normalization_defaults [[]]).1,
   ((C2_normalization_defaults [[]]).2 []).2.1 rfl,
   ((C2_normalization_defaults [[]]).2 []).2.2.2.1 rfl,
   ((C2_normalization_defaults [[]]).2 []).2.2.2.2.1 rfl⟩

/-- C4: whenever the upstream body decoded by the link-token endpoint lacks
`link_token`, or the one decoded by the exchange endpoint lacks
`access_token`, the endpoint answers 400 with an `error` body. -/
theorem C4_missing_upstream_token_yields_400 (c : BudgetAppBackend.Creds)
    (nowTs : Nat) (linkResult reqJson exchResult : Dict) (pt : Json)
    (h1 : linkResult.lookup "link_token" = none)
    (h2 : reqJson.lookup "public_token" = some pt)
    (h3 : exchResult.lookup "access_token" = none) :
    (BudgetAppBackend.create_link_token c nowTs (Except.ok linkResult)).2 =
      ⟨400, [("error", Json.str "Failed to create link token")]⟩ ∧
    (BudgetAppBackend.exchange_token c reqJson (Except.ok exchResult)).2 =
      ⟨400, [("error", Json.str "Failed to exchange token")]⟩ := by
  constructor
  · simp [BudgetAppBackend.create_link_token, h1]
  · simp [BudgetAppBackend.exchange_token, h2, h3]

/-- C4 witness: the theorem applied to empty upstream bodies and a request
that does carry a public token. -/
theorem C4_missing_upstream_token_yields_400_witness :
    (BudgetAppBackend.create_link_token ⟨"cid", "sec", "sandbox"⟩ 0
        (Except.ok [])).2 =
      ⟨400, [("error", Json.str "Failed to create link token")]⟩ ∧
    (BudgetAppBackend.exchange_token ⟨"cid", "sec", "sandbox"⟩
        [("public_token", Json.str "pt")] (Except.ok [])).2 =
      ⟨400, [("error", Json.str "Failed to exchange token")]⟩ :=
  C4_missing_upstream_token_yields_400 ⟨"cid", "sec", "sandbox"⟩ 0
    [] [("public_token", Json.str "pt")] [] (Json.str "pt") rfl rfl rfl

/-- C5: the transaction query (which never accepts a caller-specified range)
always sends upstream exactly two requests — the accounts request, carrying
no dates, and the transactions request, whose `start_date` is the string of
`today - 730` and whose `end_date` is the string of `today`. -/
theorem C5_default_date_window (c : BudgetAppBackend.Creds)
    (tok : Option String) (today : Int) (accountsResult : Dict)
    (txUp : Except String Dict) :
    ((BudgetAppBackend.get_transactions c tok today (Except.ok accountsResult)
        txUp).1.map (fun r => r.reqBody.lookup "start_date")) =
      [none, some (Json.str (toString (today - 730)))] ∧
    ((BudgetAppBackend.get_transactions c tok today (Except.ok accountsResult)
        txUp).1.map (fun r => r.reqBody.lookup "end_date")) =
      [none, some (Json.str (toString today))] := by
  cases txUp <;> exact ⟨rfl, rfl⟩

/-- C6 counterexample: the claim says the health endpoint's body is
`status:"healthy"` and nothing else; the Flask service's health body also
carries a `service` key, so it differs from that single-key object. -/
theorem C6_flask_health_body_has_extra_key :
    BudgetAppBackend.health_check.body ≠ [("status", Json.str "healthy")] := by
  simp [BudgetAppBackend.health_check]

/-- C6 amended: both health endpoints are constants — 200, with a body whose
`status` field is `"healthy"`, independent of any other state; the FastAPI
body is exactly that single pair, while the Flask body additionally carries
`service:"budget-app-backend"`. -/
theorem C6_health_endpoints_constant :
    BudgetAppBackend.health_check.status = 200 ∧
    BudgetAppBackend.health_check.body.lookup "status" =
      some (Json.str "healthy") ∧
    BudgetAppBackend.health_check.body =
      [("status", Json.str "healthy"),
       ("service", Json.str "budget-app-backend")] ∧
    AppMain.health_check.status = 200 ∧
    AppMain.health_check.body = [("status", Json.str "healthy")] :=
  ⟨rfl, rfl, rfl, rfl, rfl⟩

/-- C7: uploading `x.csv` whose content is the header `date,name,amount`
followed by the single row `2024-01-01,Coffee,-3.50` succeeds with exactly
one record, with `date` and `name` as the strings of the file and `amount`
coerced (consistently, by column type inference) to the number
`-350/100 = -3.5`. -/
theorem C7_csv_roundtrip :
    (AppMain.upload_file (fun _ => Except.error "not an excel file") [] "x.csv"
        "date,name,amount\n2024-01-01,Coffee,-3.50\n").2 =
      ⟨200, [("message", Json.str "File uploaded successfully"),
             ("transactions", Json.arr [Json.obj
               [("date", Json.str "2024-01-01"),
                ("name", Json.str "Coffee"),
                ("amount", Json.num (mkRat (-350) 100))]])]⟩ ∧
    Json.num (mkRat (-350) 100) = Json.num (-(35 / 10 : Rat)) := by
  refine ⟨rfl, congrArg Json.num ?_⟩
  rw [Rat.mkRat_eq_div]
  norm_num

/-- C8: for every upload request — any prior uploads-directory state, any
filename, any content, any behaviour of the spreadsheet parser — the
uploaded bytes are written under the filename before parsing, so the saved
copy is present in the resulting directory state whether the parse branch
succeeds, fails, or rejects the format. -/
theorem C8_upload_persisted_regardless_of_parse
    (readExcel : String → Except String (List Dict)) (fs : AppMain.Fs)
    (filename content : String) :
    ((AppMain.upload_file readExcel fs filename content).1).lookup filename =
      some content := by
  simp [AppMain.upload_file, AppMain.fsWrite, List.lookup]

/-- C9: the response the caller sees from each Flask endpoint is the same
function of the request data and the upstream responses whatever the
process-wide credentials are — the client identifier, secret and
environment flow only into the outbound upstream requests, never into the
response body. -/
theorem C9_response_independent_of_credentials
    (c1 c2 : BudgetAppBackend.Creds) (nowTs : Nat)
    (up upE accUp txUp : Except String Dict) (reqJson : Dict)
    (tok : Option String) (today : Int) :
    (BudgetAppBackend.create_link_token c1 nowTs up).2 =
      (BudgetAppBackend.create_link_token c2 nowTs up).2 ∧
    (BudgetAppBackend.exchange_token c1 reqJson upE).2 =
      (BudgetAppBackend.exchange_token c2 reqJson upE).2 ∧
    (BudgetAppBackend.get_transactions c1 tok today accUp txUp).2 =
      (BudgetAppBackend.get_transactions c2 tok today accUp txUp).2 ∧
    BudgetAppBackend.health_check = BudgetAppBackend.health_check := by
  refine ⟨?_, ?_, ?_, rfl⟩
  · cases up with
    | error e => rfl
    | ok result =>
      cases h : result.lookup "link_token" <;>
        simp [BudgetAppBackend.create_link_token, h]
  · cases h : reqJson.lookup "public_token" with
    | none => simp [BudgetAppBackend.exchange_token, h]
    | some pt =>
      cases upE with
      | error e => simp [BudgetAppBackend.exchange_token, h]
      | ok result =>
        cases h2 : result.lookup "access_token" <;>
          simp [BudgetAppBackend.exchange_token, h, h2]
  · cases accUp with
    | error e => rfl
    | ok accountsResult => cases txUp <;> rfl

/-- C10 counterexample: the claim says a transactions response without a
`transactions` key (and no `error` key) yields `total_transactions` 0; but
`total_transactions` is fetched from the response with default 0, so the
response `total_transactions: 5` without a `transactions` key yields 5,
not 0. -/
theorem C10_total_passthrough_not_zero :
    (BudgetAppBackend.get_transactions ⟨"cid", "sec", "sandbox"⟩ none 0
        (Except.ok []) (Except.ok [("total_transactions", Json.num 5)])).2.status
      = 200 ∧
    (BudgetAppBackend.get_transactions ⟨"cid", "sec", "sandbox"⟩ none 0
        (Except.ok [])
        (Except.ok [("total_transactions", Json.num 5)])).2.body.lookup
        "transactions" = some (Json.arr []) ∧
    (BudgetAppBackend.get_transactions ⟨"cid", "sec", "sandbox"⟩ none 0
        (Except.ok [])
        (Except.ok [("total_transactions", Json.num 5)])).2.body.lookup
        "total_transactions" = some (Json.num 5) ∧
    some (Json.num 5) ≠ some (Json.num 0) := by
  refine ⟨rfl, rfl, rfl, ?_⟩
  intro h
  injection h with h1
  injection h1 with h2
  exact absurd h2 (by norm_num)

/-- C10 amended: only the transactions response is inspected for an `error`
key; with any accounts response at all (error-shaped included) and a
transactions response carrying neither `error` nor `transactions`, the
endpoint answers 200 with an empty transactions list, `total_transactions`
taken from the response with default 0, and `accounts` taken from the
accounts response with default empty list. -/
theorem C10_only_transactions_response_checked (c : BudgetAppBackend.Creds)
    (tok : Option String) (today : Int) (accountsResult txResult : Dict)
    (herr : txResult.lookup "error" = none)
    (htx : txResult.lookup "transactions" = none) :
    (BudgetAppBackend.get_transactions c tok today (Except.ok accountsResult)
        (Except.ok txResult)).2 =
      ⟨200, [("transactions", Json.arr []),
             ("total_transactions", dgetD txResult "total_transactions" (Json.num 0)),
             ("accounts", dgetD accountsResult "accounts" (Json.arr []))]⟩ ∧
    (accountsResult.lookup "accounts" = none →
      dgetD accountsResult "accounts" (Json.arr []) = Json.arr []) := by
  refine ⟨?_, fun h => dgetD_eq_default _ _ _ h⟩
  simp only [BudgetAppBackend.get_transactions, BudgetAppBackend.buildTxResponse,
    herr, dgetD_eq_default txResult "transactions" (Json.arr []) htx,
    BudgetAppBackend.iterElems, BudgetAppBackend.formatAll]

/-- C10 amended, witness: the amended theorem applied to an error-shaped
accounts response and the transactions response `total_transactions: 7`. -/
theorem C10_only_transactions_response_checked_witness :
    (BudgetAppBackend.get_transactions ⟨"cid", "sec", "sandbox"⟩ none 0
        (Except.ok [("error", Json.str "account trouble")])
        (Except.ok [("total_transactions", Json.num 7)])).2 =
      ⟨200, [("transactions", Json.arr []),
             ("total_transactions",
              dgetD [("total_transactions", Json.num 7)] "total_transactions"
                (Json.num 0)),
             ("accounts",
              dgetD [("error", Json.str "account trouble")] "accounts"
                (Json.arr []))]⟩ ∧
    (([("error", Json.str "account trouble")] : Dict).lookup "accounts" = none →
      dgetD [("error", Json.str "account trouble")] "accounts" (Json.arr []) =
        Json.arr []) :=
  C10_only_transactions_response_checked ⟨"cid", "sec", "sandbox"⟩ none 0
    [("error", Json.str "account trouble")] [("total_transactions", Json.num 7)]
    rfl rfl

/-- C3 counterexample: a request to the exchange-token endpoint whose JSON
body lacks `public_token` raises `KeyError`, which the catch-all answers
with status 500 — not the 400 the claim demands for a client-caused
validation failure. -/
theorem C3_missing_public_token_yields_500 :
    (BudgetAppBackend.exchange_token ⟨"cid", "sec", "sandbox"⟩ []
        (Except.ok [("access_token", Json.str "tok")])).2 =
      ⟨500, [("error", Json.str "\x27public_token\x27")]⟩ ∧
    (BudgetAppBackend.exchange_token ⟨"cid", "sec", "sandbox"⟩ []
        (Except.ok [("access_token", Json.str "tok")])).2.status ≠ 400 :=
  ⟨rfl, by decide⟩

/-- C3 amended: every response of the Flask endpoints is a JSON object that
is either the expected success shape (200) or carries an `error` key with a
status of 400 (upstream-rejected request) or 500 (any caught exception);
but a request omitting `public_token` lands in the catch-all and yields
500, not 400. -/
theorem C3_uniform_error_responses (c : BudgetAppBackend.Creds) (nowTs : Nat)
    (up upE accUp txUp : Except String Dict) (reqJson : Dict)
    (tok : Option String) (today : Int) :
    errorOrSuccess (BudgetAppBackend.create_link_token c nowTs up).2
      ["link_token"] ∧
    errorOrSuccess (BudgetAppBackend.exchange_token c reqJson upE).2
      ["access_token"] ∧
    errorOrSuccess (BudgetAppBackend.get_transactions c tok today accUp txUp).2
      ["transactions", "total_transactions", "accounts"] ∧
    (reqJson.lookup "public_token" = none →
      (BudgetAppBackend.exchange_token c reqJson upE).2.status = 500) := by
  refine ⟨?_, ?_, ?_, ?_⟩
  · cases up with
    | error e =>
      simp [BudgetAppBackend.create_link_token, errorOrSuccess, List.lookup]
    | ok result =>
      cases h : result.lookup "link_token" <;>
        simp [BudgetAppBackend.create_link_token, h, errorOrSuccess, List.lookup]
  · cases h : reqJson.lookup "public_token" with
    | none =>
      simp [BudgetAppBackend.exchange_token, h, errorOrSuccess, List.lookup]
    | some pt =>
      cases upE with
      | error e =>
        simp [BudgetAppBackend.exchange_token, h, errorOrSuccess, List.lookup]
      | ok result =>
        cases h2 : result.lookup "access_token" <;>
          simp [BudgetAppBackend.exchange_token, h, h2, errorOrSuccess,
            List.lookup]
  · cases accUp with
    | error e =>
      simp [BudgetAppBackend.get_transactions, errorOrSuccess, List.lookup]
    | ok a =>
      cases txUp with
      | error e =>
        simp [BudgetAppBackend.get_transactions, errorOrSuccess, List.lookup]
      | ok r =>
        show errorOrSuccess (BudgetAppBackend.buildTxResponse a r) _
        unfold BudgetAppBackend.buildTxResponse
        cases herr : r.lookup "error" with
        | some err => simp [errorOrSuccess, List.lookup]
        | none =>
          cases hit : BudgetAppBackend.iterElems
              (dgetD r "transactions" (Json.arr [])) with
          | error e => simp [errorOrSuccess, List.lookup]
          | ok elems =>
            cases hfa : BudgetAppBackend.formatAll elems <;>
              simp [errorOrSuccess, List.lookup, hfa]
  · intro h
    simp [BudgetAppBackend.exchange_token, h]

/-- C3 amended, witness: the amended theorem applied to concrete
credentials, a successful link-token exchange, and a request body lacking
`public_token`, whose hypothesis is discharged by computation. -/
theorem C3_uniform_error_responses_witness :
    errorOrSuccess (BudgetAppBackend.create_link_token ⟨"cid", "sec", "sandbox"⟩
        0 (Except.ok [("link_token", Json.str "lt")])).2 ["link_token"] ∧
    (BudgetAppBackend.exchange_token ⟨"cid", "sec", "sandbox"⟩ []
        (Except.ok [])).2.status = 500 :=
  ⟨(C3_uniform_error_responses ⟨"cid", "sec", "sandbox"⟩ 0
      (Except.ok [("link_token", Json.str "lt")]) (Except.ok []) (Except.ok [])
      (Except.ok []) [] none 0).1,
   (C3_uniform_error_responses ⟨"cid", "sec", "sandbox"⟩ 0
      (Except.ok [("link_token", Json.str "lt")]) (Except.ok []) (Except.ok [])
      (Except.ok []) [] none 0).2.2.2 rfl⟩
